import Mathlib

/-!
Verification development for the mcp-connector backend.

The definitions below are a shallow embedding of the runtime-connector core of
the repository: `MCPServerManager` (src/backend/app/core/mcp_manager.py),
`SessionManager` (src/backend/app/core/session_manager.py) and the
session-handling block of the `/chat/completions` endpoint
(src/backend/app/api/v1/openai_compatible.py).

Python dictionaries are modelled as association lists; outcomes of external
calls (client context entry, tool enumeration, database lookups, the model
built from environment variables, wall-clock reads) are supplied as explicit
oracle data carried by the inputs, so every definition is executable.
-/

set_option maxHeartbeats 1000000

namespace MCPConnector

/-! ### Association-list model of Python dicts -/

section AssocList

variable {κ : Type} [DecidableEq κ] {α : Type}

/-- `d.get(k)` / `d[k]` read access on a Python dict modelled as a list of
key-value pairs. -/
def lookupK (k : κ) : List (κ × α) → Option α
  | [] => none
  | p :: rest => if p.1 = k then some p.2 else lookupK k rest

/-- `del d[k]`: removes the binding for `k`. -/
def eraseK (k : κ) (l : List (κ × α)) : List (κ × α) :=
  l.filter (fun p => decide (p.1 ≠ k))

/-- `d[k] = v`: (over)writes the binding for `k`. -/
def insertK (k : κ) (v : α) (l : List (κ × α)) : List (κ × α) :=
  (k, v) :: eraseK k l

/-- `k in d`. -/
def containsK (k : κ) (l : List (κ × α)) : Bool :=
  (lookupK k l).isSome

end AssocList

/-! ### Data model for the MCP server manager -/

/-- A tool advertised by an MCP server (an element of the list returned by
`list_tools_sync`). -/
structure MCPTool where
  name : String
deriving DecidableEq

/-- Oracle model of a `strands.tools.mcp.MCPClient`: `cid` is the object
identity; the remaining fields record how the external process would react to
the context-management calls.  `enterOk = false` means `__enter__` raises;
`listToolsRes = none` means `list_tools_sync` raises; `exitOk = false` means
`__exit__` raises. -/
structure MCPClient where
  cid : Nat
  enterOk : Bool
  listToolsRes : Option (List MCPTool)
  exitOk : Bool
deriving DecidableEq

/-- Tools an agent may hold: either one of the three built-ins imported from
`strands_tools`, or a tool obtained from an MCP client. -/
inductive AgentTool where
  | builtin : String → AgentTool
  | mcp : MCPTool → AgentTool
deriving DecidableEq

/-- `built_in_tools = [calculator, current_time, http_request]`
(mcp_manager.py line 203). -/
def builtInTools : List AgentTool :=
  [.builtin "calculator", .builtin "current_time", .builtin "http_request"]

/-- A `strands.Agent`: the tool list it was constructed with and the model
handle (`none` when no model provider is configured). -/
structure Agent where
  tools : List AgentTool
  model : Option String
deriving DecidableEq

/-- A tool configuration row (the `tool_config` dict).  The `client` field is
the oracle for the `MCPClient` object the transport constructors would
produce. -/
structure ToolConfig where
  id : Nat
  name : String
  connectionType : String
  command : Option String
  args : List String
  env : List (String × String)
  url : Option String
  client : MCPClient
deriving DecidableEq

/-- The dict stored in `_client_info` (the `started_at` wall-clock timestamp is
omitted: it is never read by any observable operation). -/
structure ClientInfo where
  toolId : Nat
  name : String
  connectionType : String
  status : String
  command : Option String
  args : List String
  url : Option String
deriving DecidableEq

def mkClientInfo (cfg : ToolConfig) : ClientInfo :=
  { toolId := cfg.id, name := cfg.name, connectionType := cfg.connectionType,
    status := "running", command := cfg.command, args := cfg.args, url := cfg.url }

/-- The mutable state of `MCPServerManager`. -/
structure MCPState where
  clients : List (Nat × MCPClient)
  clientInfo : List (Nat × ClientInfo)
  activeClients : List (Nat × Bool)
  toolsCache : List (Nat × List MCPTool)
  agentsCache : List (String × Agent)
deriving DecidableEq

/-- The state right after `MCPServerManager.__init__`. -/
def initMCP : MCPState :=
  { clients := [], clientInfo := [], activeClients := [], toolsCache := [], agentsCache := [] }

/-- `_create_mcp_client` (mcp_manager.py lines 299-351): dispatches on
`connection_type`; http/sse raise `ValueError` when the URL is missing or
falsy; an unsupported type raises `ValueError`.  The stdio/http/sse client
constructors themselves are lazy (the transport is only opened by
`__enter__`), so on the success path the oracle client is returned.
`none` models a raised exception. -/
def createMCPClient (cfg : ToolConfig) : Option MCPClient :=
  if cfg.connectionType = "stdio" then
    some cfg.client
  else if cfg.connectionType = "http" then
    match cfg.url with
    | some u => if u.isEmpty then none else some cfg.client
    | none => none
  else if cfg.connectionType = "sse" then
    match cfg.url with
    | some u => if u.isEmpty then none else some cfg.client
    | none => none
  else
    none

/-- `MCPServerManager.start_mcp_server` (mcp_manager.py lines 34-86).
Returns the boolean result and the post-state.  Mirrors the source exactly:
the client and its info are registered before activation; on a failed
`__enter__` or `list_tools_sync` the cleanup block removes `_clients` and
`_client_info` entries (and, as in the source, does not touch
`_active_clients`). -/
def start_mcp_server (s : MCPState) (cfg : ToolConfig) : Bool × MCPState :=
  let toolId := cfg.id
  if containsK toolId s.clients then
    (false, s)
  else
    match createMCPClient cfg with
    | none => (false, s)
    | some mcpClient =>
      let s1 : MCPState :=
        { s with clients := insertK toolId mcpClient s.clients,
                 clientInfo := insertK toolId (mkClientInfo cfg) s.clientInfo }
      if mcpClient.enterOk then
        let s2 : MCPState :=
          { s1 with activeClients := insertK toolId true s1.activeClients }
        match mcpClient.listToolsRes with
        | some tools =>
          (true, { s2 with toolsCache := insertK toolId tools s2.toolsCache })
        | none =>
          (false, { s2 with clients := eraseK toolId s2.clients,
                            clientInfo := eraseK toolId s2.clientInfo })
      else
        (false, { s1 with clients := eraseK toolId s1.clients,
                          clientInfo := eraseK toolId s1.clientInfo })

/-- `MCPServerManager.is_running` (lines 156-158). -/
def is_running (s : MCPState) (toolId : Nat) : Bool :=
  containsK toolId s.clients

/-- `MCPServerManager.is_active` (lines 160-162):
`tool_id in self._active_clients and self._active_clients[tool_id]`. -/
def is_active (s : MCPState) (toolId : Nat) : Bool :=
  (lookupK toolId s.activeClients).getD false

/-- `MCPServerManager.stop_mcp_server` (lines 88-131).  An exception from
`client.__exit__` is caught (in that case the active flag is not reset), the
four per-tool maps are then cleared of `tool_id`, and every agents-cache key
containing `str(tool_id)` among its comma-separated components is deleted. -/
def stop_mcp_server (s : MCPState) (toolId : Nat) : Bool × MCPState :=
  match lookupK toolId s.clients with
  | none => (false, s)
  | some client =>
    let s1 : MCPState :=
      if (lookupK toolId s.activeClients).getD false then
        if client.exitOk then
          { s with activeClients := insertK toolId false s.activeClients }
        else
          s
      else
        s
    (true,
      { s1 with
          clients := eraseK toolId s1.clients,
          clientInfo := eraseK toolId s1.clientInfo,
          activeClients := eraseK toolId s1.activeClients,
          toolsCache := eraseK toolId s1.toolsCache,
          agentsCache := s1.agentsCache.filter
            (fun p => !((p.1.splitOn ",").contains (toString toolId))) })

/-- `MCPServerManager.get_tools_from_client` (lines 164-189): cached list if
present; otherwise `none` when no client is registered; otherwise the client
is activated if necessary and its tool list fetched and cached, with any
exception converted to `none`. -/
def get_tools_from_client (s : MCPState) (toolId : Nat) :
    Option (List MCPTool) × MCPState :=
  match lookupK toolId s.toolsCache with
  | some ts => (some ts, s)
  | none =>
    match lookupK toolId s.clients with
    | none => (none, s)
    | some client =>
      if is_active s toolId then
        match client.listToolsRes with
        | some ts => (some ts, { s with toolsCache := insertK toolId ts s.toolsCache })
        | none => (none, s)
      else
        if client.enterOk then
          let s1 : MCPState :=
            { s with activeClients := insertK toolId true s.activeClients }
          match client.listToolsRes with
          | some ts => (some ts, { s1 with toolsCache := insertK toolId ts s1.toolsCache })
          | none => (none, s1)
        else
          (none, s)

/-- The cache key of `get_agent_for_tools` (lines 236-238):
`','.join(map(str, sorted(tool_ids)))`. -/
def fingerprint (toolIds : List Nat) : String :=
  String.intercalate "," ((List.insertionSort (· ≤ ·) toolIds).map toString)

/-- One iteration of the provider loop of `get_agent_for_tools`
(lines 247-269), threading the accumulated tool list and manager state.
A provider that is unknown in the database, fails to start, or yields no
tools (`None` or an empty — falsy — list) is skipped. -/
def processToolId (db : Nat → Option ToolConfig)
    (acc : List MCPTool × MCPState) (toolId : Nat) : List MCPTool × MCPState :=
  let ensure : MCPState × Bool :=
    if is_running acc.2 toolId then (acc.2, true)
    else
      match db toolId with
      | none => (acc.2, false)
      | some cfg =>
        let r := start_mcp_server acc.2 cfg
        (r.2, r.1)
  if ensure.2 then
    let r2 := get_tools_from_client ensure.1 toolId
    match r2.1 with
    | some ts => if ts.isEmpty then (acc.1, r2.2) else (acc.1 ++ ts, r2.2)
    | none => (acc.1, r2.2)
  else
    (acc.1, ensure.1)

/-- `MCPServerManager.get_agent_for_tools` (lines 191-297).  `db` is the
oracle for `MCPToolQueries.get_tool_by_id`, `model` the result of
`_create_model_from_env`.  The third component counts how many `Agent(...)`
constructions the call performed (`0` exactly on a cache hit).  An empty
`tool_ids` list returns a built-ins-only agent immediately (line 231-233),
an empty aggregate returns one after the loop (lines 273-275); only the
path through line 286 stores into `_agents_cache`. -/
def get_agent_for_tools (db : Nat → Option ToolConfig) (model : Option String)
    (s : MCPState) (toolIds : List Nat) : Agent × MCPState × Nat :=
  if toolIds.isEmpty then
    ({ tools := builtInTools, model := model }, s, 1)
  else
    let cacheKey := fingerprint toolIds
    match lookupK cacheKey s.agentsCache with
    | some agent => (agent, s, 0)
    | none =>
      let r := toolIds.foldl (processToolId db) ([], s)
      if r.1.isEmpty then
        ({ tools := builtInTools, model := model }, r.2, 1)
      else
        let agent : Agent := { tools := r.1.map AgentTool.mcp ++ builtInTools, model := model }
        (agent, { r.2 with agentsCache := insertK cacheKey agent r.2.agentsCache }, 1)

/-! ### Data model for the session manager -/

/-- The dict stored in `SessionManager.sessions` (session_manager.py
lines 64-71). -/
structure SessionData where
  assistantId : Nat
  clients : List MCPClient
  agent : Agent
  tools : List AgentTool
  createdAt : Nat
  lastUsedAt : Nat
deriving DecidableEq

/-- The mutable state of `SessionManager`: `sessions`, `session_expiry` and
the configured `expiry_time` (seconds; wall-clock times are `Nat`). -/
structure SessionMgr where
  sessions : List (String × SessionData)
  sessionExpiry : List (String × Nat)
  expiryTime : Nat
deriving DecidableEq

/-- `SessionManager(expiry_time)`; the module-level instance uses the default
`30 * 60`. -/
def initSessionMgr (expiryTime : Nat) : SessionMgr :=
  { sessions := [], sessionExpiry := [], expiryTime := expiryTime }

/-- `SessionManager.close_session` (lines 98-119). -/
def close_session (mgr : SessionMgr) (sid : String) : Bool × SessionMgr :=
  if containsK sid mgr.sessions then
    (true, { mgr with sessions := eraseK sid mgr.sessions,
                      sessionExpiry := eraseK sid mgr.sessionExpiry })
  else
    (false, mgr)

/-- `SessionManager.create_session` (lines 31-76).  `genId` is the oracle for
`uuid.uuid4()` (used only when `sessionId` is `none`); `now` is the oracle for
`time.time()`.  An existing session under the same id is closed first; the
agent is `Agent(tools=tools)` (no model argument). -/
def create_session (mgr : SessionMgr) (sessionId : Option String) (genId : String)
    (assistantId : Nat) (clients : List MCPClient) (tools : List AgentTool)
    (now : Nat) : String × Agent × SessionMgr :=
  let sid := sessionId.getD genId
  let mgr1 := if containsK sid mgr.sessions then (close_session mgr sid).2 else mgr
  let agent : Agent := { tools := tools, model := none }
  (sid, agent,
    { mgr1 with
        sessions := insertK sid
          { assistantId := assistantId, clients := clients, agent := agent,
            tools := tools, createdAt := now, lastUsedAt := now } mgr1.sessions,
        sessionExpiry := insertK sid (now + mgr1.expiryTime) mgr1.sessionExpiry })

/-- `SessionManager.get_session` (lines 78-96): on a hit, the expiry deadline
is moved to `now + expiry_time`, `last_used_at` is refreshed, and the updated
session dict is returned. -/
def get_session (mgr : SessionMgr) (sid : String) (now : Nat) :
    Option SessionData × SessionMgr :=
  match lookupK sid mgr.sessions with
  | some d =>
    let d1 := { d with lastUsedAt := now }
    (some d1,
      { mgr with
          sessionExpiry := insertK sid (now + mgr.expiryTime) mgr.sessionExpiry,
          sessions := insertK sid d1 mgr.sessions })
  | none => (none, mgr)

/-- The expired-id list computed by `cleanup_expired_sessions`
(lines 129-132): ids whose stored deadline satisfies `current_time > expiry`. -/
def expiredSessions (mgr : SessionMgr) (now : Nat) : List String :=
  (mgr.sessionExpiry.filter (fun p => decide (now > p.2))).map Prod.fst

/-- `SessionManager.cleanup_expired_sessions` (lines 121-138): closes every
expired session and reports how many ids were collected. -/
def cleanup_expired_sessions (mgr : SessionMgr) (now : Nat) : Nat × SessionMgr :=
  let expired := expiredSessions mgr now
  (expired.length, expired.foldl (fun m sid => (close_session m sid).2) mgr)

/-- `SessionManager.clear_all_sessions` (lines 184-195). -/
def clear_all_sessions (mgr : SessionMgr) : Nat × SessionMgr :=
  let ids := mgr.sessions.map Prod.fst
  (ids.length, ids.foldl (fun m sid => (close_session m sid).2) mgr)

/-- One call against the session registry, for stating invariants over
arbitrary operation sequences. -/
inductive SessionOp where
  | create (sessionId : Option String) (genId : String) (assistantId : Nat)
      (clients : List MCPClient) (tools : List AgentTool) (now : Nat)
  | get (sid : String) (now : Nat)
  | close (sid : String)
  | cleanup (now : Nat)
  | clearAll

/-- Applies a `SessionOp`, discarding the returned value. -/
def applyOp (mgr : SessionMgr) : SessionOp → SessionMgr
  | .create sessionId genId assistantId clients tools now =>
    (create_session mgr sessionId genId assistantId clients tools now).2.2
  | .get sid now => (get_session mgr sid now).2
  | .close sid => (close_session mgr sid).2
  | .cleanup now => (cleanup_expired_sessions mgr now).2
  | .clearAll => (clear_all_sessions mgr).2

/-- The implicit registry invariant of claim C10: `sessions` and
`session_expiry` always hold exactly the same ids. -/
def SameKeys (mgr : SessionMgr) : Prop :=
  ∀ sid : String, containsK sid mgr.sessions = containsK sid mgr.sessionExpiry

/-- The session-handling block of `create_chat_completion`
(openai_compatible.py lines 111-158), for a request that carries a
`session_id` header.  `assistantId` is the id of the resolved assistant,
`cfgClients`/`cfgTools` the assistant configuration, `genId` the uuid oracle.
Returns the session id placed in the `Session-ID` response header together
with the resulting registry state.  Note that on a mismatch the supplied
`session_id` itself is passed to `create_session`. -/
def chat_session_handling (mgr : SessionMgr) (sessionId : String)
    (assistantId : Nat) (cfgClients : List MCPClient) (cfgTools : List AgentTool)
    (now : Nat) (genId : String) : String × SessionMgr :=
  let r := get_session mgr sessionId now
  match r.1 with
  | some sess =>
    if sess.assistantId = assistantId then
      (sessionId, r.2)
    else
      let mgr2 := (close_session r.2 sessionId).2
      let c := create_session mgr2 (some sessionId) genId assistantId cfgClients cfgTools now
      (c.1, c.2.2)
  | none =>
    let c := create_session r.2 (some sessionId) genId assistantId cfgClients cfgTools now
    (c.1, c.2.2)

/-! ### Concrete inputs used by witnesses and counterexamples -/

/-- A healthy stdio provider: activation succeeds and one tool is listed. -/
def cfgGood : ToolConfig :=
  { id := 1, name := "echo", connectionType := "stdio", command := some "echo-server",
    args := [], env := [], url := none,
    client := { cid := 11, enterOk := true, listToolsRes := some [{ name := "echo_tool" }],
                exitOk := true } }

/-- An http provider whose client activates (`__enter__` succeeds) but whose
initial `list_tools_sync` raises. -/
def cfgListFails : ToolConfig :=
  { id := 7, name := "flaky", connectionType := "http", command := none,
    args := [], env := [], url := some "http://x",
    client := { cid := 77, enterOk := true, listToolsRes := none, exitOk := true } }

/-- An http provider with no URL: `_create_http_client` raises `ValueError`,
so `start_mcp_server` fails before registering anything. -/
def cfgNoUrl : ToolConfig :=
  { id := 3, name := "nourl", connectionType := "http", command := none,
    args := [], env := [], url := none,
    client := { cid := 33, enterOk := true, listToolsRes := some [], exitOk := true } }

/-- A descriptor store with no rows. -/
def dbEmpty : Nat → Option ToolConfig := fun _ => none

/-- A descriptor store holding only `cfgGood` under id 1. -/
def dbGood : Nat → Option ToolConfig := fun i => if i = 1 then some cfgGood else none

/-- A descriptor store holding only `cfgNoUrl` under id 3. -/
def dbNoUrl : Nat → Option ToolConfig := fun i => if i = 3 then some cfgNoUrl else none

/-- A manager state with tool 7 running and active, its tool list cached, and
three cached agents whose keys exercise the exact-component check:
`"7"` and `"1,7"` contain the component `7`, `"17"` does not. -/
def sStopW : MCPState :=
  { clients := [(7, { cid := 77, enterOk := true, listToolsRes := some [{ name := "t" }],
                      exitOk := true })],
    clientInfo := [(7, mkClientInfo cfgListFails)],
    activeClients := [(7, true)],
    toolsCache := [(7, [{ name := "t" }])],
    agentsCache :=
      [("7", { tools := builtInTools, model := none }),
       ("1,7", { tools := [.builtin "calculator"], model := none }),
       ("17", { tools := [.builtin "current_time"], model := none })] }

/-- A client that raises from `__exit__` (deactivation fails). -/
def cExitRaises : MCPClient :=
  { cid := 44, enterOk := true, listToolsRes := some [], exitOk := false }

/-- A manager state with tool 4 running and active whose client raises from
`__exit__` (deactivation fails). -/
def sExitRaises : MCPState :=
  { clients := [(4, cExitRaises)],
    clientInfo := [],
    activeClients := [(4, true)],
    toolsCache := [(4, [])],
    agentsCache := [("4", { tools := builtInTools, model := none })] }

/-- A registry holding one session `"s"` for assistant 5, created at time 100
with the default 30-minute expiry. -/
def mgrC8 : SessionMgr :=
  (create_session (initSessionMgr 1800) (some "s") "gen" 5 [] [] 100).2.2

/-- The session record stored in `mgrC8`. -/
def dC8 : SessionData :=
  { assistantId := 5, clients := [], agent := { tools := [], model := none },
    tools := [], createdAt := 100, lastUsedAt := 100 }

/-- A registry holding one session `"sess-a"` bound to assistant 1. -/
def mgrC9 : SessionMgr :=
  (create_session (initSessionMgr 1800) (some "sess-a") "gen" 1 [] [] 0).2.2

/-! ### Lemmas about the association-list operations -/

section AssocLemmas

variable {κ : Type} [DecidableEq κ] {α : Type}

@[simp] theorem lookupK_nil (k : κ) : lookupK k ([] : List (κ × α)) = none := rfl

theorem lookupK_cons (k : κ) (p : κ × α) (rest : List (κ × α)) :
    lookupK k (p :: rest) = if p.1 = k then some p.2 else lookupK k rest := rfl

theorem eraseK_cons (k : κ) (p : κ × α) (rest : List (κ × α)) :
    eraseK k (p :: rest) = if p.1 = k then eraseK k rest else p :: eraseK k rest := by
  by_cases h : p.1 = k <;> simp [eraseK, List.filter_cons, h]

@[simp] theorem lookupK_eraseK (x k : κ) (l : List (κ × α)) :
    lookupK x (eraseK k l) = if x = k then none else lookupK x l := by
  induction l with
  | nil => simp [eraseK]
  | cons p rest ih =>
    rw [eraseK_cons]
    by_cases hpk : p.1 = k
    · rw [if_pos hpk, ih, lookupK_cons]
      by_cases hxk : x = k
      · simp [hxk]
      · have hpx : p.1 ≠ x := fun hh => hxk (hh ▸ hpk)
        simp [hxk, hpx]
    · rw [if_neg hpk, lookupK_cons, lookupK_cons]
      by_cases hpx : p.1 = x
      · have hxk : x ≠ k := fun hh => hpk (hpx.trans hh)
        simp [hpx, hxk]
      · simp [hpx, ih]

@[simp] theorem lookupK_insertK (x k : κ) (v : α) (l : List (κ × α)) :
    lookupK x (insertK k v l) = if x = k then some v else lookupK x l := by
  rw [insertK, lookupK_cons, lookupK_eraseK]
  by_cases h : x = k
  · simp [h]
  · simp [h, Ne.symm h]

@[simp] theorem containsK_nil (k : κ) : containsK k ([] : List (κ × α)) = false := rfl

@[simp] theorem containsK_insertK (x k : κ) (v : α) (l : List (κ × α)) :
    containsK x (insertK k v l) = (decide (x = k) || containsK x l) := by
  by_cases h : x = k <;> simp [containsK, h]

@[simp] theorem containsK_eraseK (x k : κ) (l : List (κ × α)) :
    containsK x (eraseK k l) = (!decide (x = k) && containsK x l) := by
  by_cases h : x = k <;> simp [containsK, h]

theorem eraseK_idem (k : κ) (l : List (κ × α)) :
    eraseK k (eraseK k l) = eraseK k l := by
  simp [eraseK, List.filter_filter]

theorem eraseK_insertK (k : κ) (v : α) (l : List (κ × α)) :
    eraseK k (insertK k v l) = eraseK k l := by
  rw [insertK, eraseK_cons, if_pos rfl, eraseK_idem]

theorem lookupK_eq_none_of_containsK_eq_false {k : κ} {l : List (κ × α)}
    (h : containsK k l = false) : lookupK k l = none := by
  unfold containsK at h
  cases hl : lookupK k l with
  | none => rfl
  | some v => rw [hl] at h; simp at h

theorem eraseK_of_containsK_eq_false {k : κ} {l : List (κ × α)}
    (h : containsK k l = false) : eraseK k l = l := by
  have hn := lookupK_eq_none_of_containsK_eq_false h
  clear h
  induction l with
  | nil => rfl
  | cons p rest ih =>
    rw [lookupK_cons] at hn
    by_cases hpk : p.1 = k
    · rw [if_pos hpk] at hn; exact absurd hn (by simp)
    · rw [if_neg hpk] at hn
      rw [eraseK_cons, if_neg hpk, ih hn]

theorem lookupK_mem {k : κ} {v : α} {l : List (κ × α)}
    (h : lookupK k l = some v) : (k, v) ∈ l := by
  induction l with
  | nil => simp at h
  | cons p rest ih =>
    rw [lookupK_cons] at h
    by_cases hpk : p.1 = k
    · rw [if_pos hpk] at h
      have hv : p.2 = v := by injection h
      have : p = (k, v) := Prod.ext hpk hv
      rw [← this]; exact List.mem_cons_self p rest
    · rw [if_neg hpk] at h
      exact List.mem_cons_of_mem p (ih h)

theorem lookupK_of_mem_nodup {k : κ} {v : α} {l : List (κ × α)}
    (hnd : (l.map Prod.fst).Nodup) (hm : (k, v) ∈ l) : lookupK k l = some v := by
  induction l with
  | nil => simp at hm
  | cons p rest ih =>
    rw [List.map_cons, List.nodup_cons] at hnd
    rcases List.mem_cons.mp hm with hh | ht
    · rw [← hh, lookupK_cons, if_pos rfl]
    · have hk : k ∈ rest.map Prod.fst := List.mem_map.mpr ⟨(k, v), ht, rfl⟩
      have hpk : p.1 ≠ k := fun hh => hnd.1 (hh ▸ hk)
      rw [lookupK_cons, if_neg hpk]
      exact ih hnd.2 ht

theorem keys_eraseK_sublist (k : κ) (l : List (κ × α)) :
    ((eraseK k l).map Prod.fst).Sublist (l.map Prod.fst) :=
  List.Sublist.map Prod.fst (List.filter_sublist l)

theorem not_mem_keys_eraseK (k : κ) (l : List (κ × α)) :
    k ∉ (eraseK k l).map Prod.fst := by
  intro h
  obtain ⟨p, hp, hfst⟩ := List.mem_map.mp h
  have := (List.mem_filter.mp hp).2
  simp only [decide_eq_true_eq] at this
  exact this hfst

theorem nodup_keys_insertK {l : List (κ × α)} (k : κ) (v : α)
    (hnd : (l.map Prod.fst).Nodup) : ((insertK k v l).map Prod.fst).Nodup := by
  rw [insertK, List.map_cons, List.nodup_cons]
  exact ⟨not_mem_keys_eraseK k l, (keys_eraseK_sublist k l).nodup hnd⟩

theorem all_filter_self {β : Type} (p : β → Bool) (l : List β) :
    (l.filter p).all p = true := by
  rw [List.all_eq_true]
  intro x hx
  exact (List.mem_filter.mp hx).2

end AssocLemmas

/-! ### Lemmas about the MCP server manager -/

theorem createMCPClient_some {cfg : ToolConfig} {c : MCPClient}
    (h : createMCPClient cfg = some c) : c = cfg.client := by
  unfold createMCPClient at h
  split_ifs at h <;> first
    | (injection h; subst_vars; rfl)
    | (revert h; cases cfg.url with
        | none => intro h; simp at h
        | some u =>
          intro h
          by_cases hu : u.isEmpty
          · simp [hu] at h
          · simp [hu] at h; exact h.symm)

/-- A successful `start_mcp_server` call happened on the unique success path:
the id was free, the oracle client was created, `__enter__` succeeded and
`list_tools_sync` returned a list; the post-state registers the client, its
info, the active flag and the fetched tool list. -/
theorem start_mcp_server_eq_of_true {s : MCPState} {cfg : ToolConfig}
    (h : (start_mcp_server s cfg).1 = true) :
    containsK cfg.id s.clients = false ∧
    cfg.client.enterOk = true ∧
    ∃ ts, cfg.client.listToolsRes = some ts ∧
      start_mcp_server s cfg =
        (true,
          { clients := insertK cfg.id cfg.client s.clients,
            clientInfo := insertK cfg.id (mkClientInfo cfg) s.clientInfo,
            activeClients := insertK cfg.id true s.activeClients,
            toolsCache := insertK cfg.id ts s.toolsCache,
            agentsCache := s.agentsCache }) := by
  by_cases hc : containsK cfg.id s.clients
  · exfalso; simp [start_mcp_server, hc] at h
  · cases hcr : createMCPClient cfg with
    | none => exfalso; simp [start_mcp_server, hc, hcr] at h
    | some c =>
      have hcc : c = cfg.client := createMCPClient_some hcr
      subst hcc
      by_cases he : cfg.client.enterOk
      · cases hl : cfg.client.listToolsRes with
        | none => exfalso; simp [start_mcp_server, hc, hcr, he, hl] at h
        | some ts =>
          refine ⟨by simpa using hc, he, ts, rfl, ?_⟩
          simp [start_mcp_server, hc, hcr, he, hl]
      · exfalso; simp [start_mcp_server, hc, hcr, he] at h

/-- Complete description of a `stop_mcp_server` call on a running id. -/
theorem stop_mcp_server_eq {s : MCPState} {toolId : Nat} {c : MCPClient}
    (h : lookupK toolId s.clients = some c) :
    stop_mcp_server s toolId =
      (true,
        { clients := eraseK toolId s.clients,
          clientInfo := eraseK toolId s.clientInfo,
          activeClients := eraseK toolId s.activeClients,
          toolsCache := eraseK toolId s.toolsCache,
          agentsCache := s.agentsCache.filter
            (fun p => !((p.1.splitOn ",").contains (toString toolId))) }) := by
  unfold stop_mcp_server
  rw [h]
  by_cases ha : (lookupK toolId s.activeClients).getD false
  · by_cases hx : c.exitOk
    · simp [ha, hx, eraseK_insertK]
    · simp [ha, hx]
  · simp [ha]

/-- `fingerprint` only depends on the multiset of ids: sorting makes every
permutation of a tool-id list produce the same cache key. -/
theorem fingerprint_perm {l1 l2 : List Nat} (h : l1.Perm l2) :
    fingerprint l1 = fingerprint l2 := by
  unfold fingerprint
  have heq : List.insertionSort (· ≤ ·) l1 = List.insertionSort (· ≤ ·) l2 :=
    List.eq_of_perm_of_sorted
      ((List.perm_insertionSort _ l1).trans (h.trans (List.perm_insertionSort _ l2).symm))
      (List.sorted_insertionSort _ l1) (List.sorted_insertionSort _ l2)
  rw [heq]

/-- On a non-empty id list whose fingerprint is cached, `get_agent_for_tools`
returns the cached agent, leaves the state untouched and builds nothing. -/
theorem get_agent_cache_hit (db : Nat → Option ToolConfig) (model : Option String)
    (s : MCPState) (ids : List Nat) (a : Agent)
    (hne : ids.isEmpty = false)
    (hk : lookupK (fingerprint ids) s.agentsCache = some a) :
    get_agent_for_tools db model s ids = (a, s, 0) := by
  simp [get_agent_for_tools, hne, hk]

/-- On a cache miss whose provider loop accumulates at least one tool, the
call builds one agent holding the accumulated tools plus the built-ins and
stores it under the fingerprint. -/
theorem get_agent_cache_miss_build (db : Nat → Option ToolConfig)
    (model : Option String) (s : MCPState) (ids : List Nat)
    (hne : ids.isEmpty = false)
    (hk : lookupK (fingerprint ids) s.agentsCache = none)
    (hnonempty : (ids.foldl (processToolId db) ([], s)).1.isEmpty = false) :
    get_agent_for_tools db model s ids =
      ({ tools := (ids.foldl (processToolId db) ([], s)).1.map AgentTool.mcp ++ builtInTools,
         model := model },
       { (ids.foldl (processToolId db) ([], s)).2 with
           agentsCache := insertK (fingerprint ids)
             { tools := (ids.foldl (processToolId db) ([], s)).1.map AgentTool.mcp
                 ++ builtInTools,
               model := model }
             ((ids.foldl (processToolId db) ([], s)).2).agentsCache }, 1) := by
  simp [get_agent_for_tools, hne, hk, hnonempty]

/-- On a cache miss whose provider loop accumulates nothing, the call falls
back to a fresh built-ins-only agent and caches nothing. -/
theorem get_agent_cache_miss_empty (db : Nat → Option ToolConfig)
    (model : Option String) (s : MCPState) (ids : List Nat)
    (hne : ids.isEmpty = false)
    (hk : lookupK (fingerprint ids) s.agentsCache = none)
    (hempty : (ids.foldl (processToolId db) ([], s)).1.isEmpty = true) :
    get_agent_for_tools db model s ids =
      ({ tools := builtInTools, model := model },
       (ids.foldl (processToolId db) ([], s)).2, 1) := by
  simp [get_agent_for_tools, hne, hk, hempty]

/-! ### Lemmas about the session manager -/

theorem close_session_containsK (m : SessionMgr) (sid x : String) :
    containsK x ((close_session m sid).2).sessions
      = (containsK x m.sessions && !decide (x = sid)) := by
  unfold close_session
  by_cases h : containsK sid m.sessions
  · by_cases hx : x = sid <;> simp [h, hx, Bool.and_comm]
  · by_cases hx : x = sid
    · subst hx
      simp only [Bool.not_eq_true] at h
      simp [h]
    · simp [h, hx]

theorem containsK_foldl_close (L : List String) (m : SessionMgr) (x : String) :
    containsK x ((L.foldl (fun m sid => (close_session m sid).2) m)).sessions
      = (containsK x m.sessions && !decide (x ∈ L)) := by
  induction L generalizing m with
  | nil => simp
  | cons a L ih =>
    rw [List.foldl_cons, ih, close_session_containsK]
    by_cases hxa : x = a
    · simp [hxa]
    · simp [hxa, Bool.and_assoc]

theorem mem_expiredSessions_iff {mgr : SessionMgr} {now : Nat} {sid : String} {e : Nat}
    (hnd : (mgr.sessionExpiry.map Prod.fst).Nodup)
    (he : lookupK sid mgr.sessionExpiry = some e) :
    sid ∈ expiredSessions mgr now ↔ e < now := by
  unfold expiredSessions
  constructor
  · intro h
    obtain ⟨p, hp, hfst⟩ := List.mem_map.mp h
    obtain ⟨hmem, hdec⟩ := List.mem_filter.mp hp
    have hpair : (sid, p.2) ∈ mgr.sessionExpiry := by
      have : p = (sid, p.2) := Prod.ext hfst rfl
      rw [← this]; exact hmem
    have hlp := lookupK_of_mem_nodup hnd hpair
    rw [he] at hlp
    have hpe : p.2 = e := by injection hlp.symm
    simp only [decide_eq_true_eq] at hdec
    exact hpe ▸ hdec
  · intro h
    refine List.mem_map.mpr ⟨(sid, e), List.mem_filter.mpr ⟨lookupK_mem he, ?_⟩, rfl⟩
    simpa using h

/-- A session present in both maps survives `cleanup_expired_sessions now`
exactly when its stored deadline is not strictly in the past. -/
theorem cleanup_containsK (mgr : SessionMgr) (now : Nat) (sid : String) (e : Nat)
    (hnd : (mgr.sessionExpiry.map Prod.fst).Nodup)
    (he : lookupK sid mgr.sessionExpiry = some e) :
    containsK sid ((cleanup_expired_sessions mgr now).2).sessions
      = (containsK sid mgr.sessions && !decide (e < now)) := by
  unfold cleanup_expired_sessions
  rw [containsK_foldl_close]
  have : decide (sid ∈ expiredSessions mgr now) = decide (e < now) :=
    decide_eq_decide.mpr (mem_expiredSessions_iff hnd he)
  rw [this]

/-! ### Claim theorems -/

/-- C1: the claim states that when `start` registers a client but activation
or the initial tool-list fetch fails, the registration is rolled back from
every manager map, so that both `is_running` and `is_active` are false
afterwards.  The code's cleanup block (mcp_manager.py lines 75-80) deletes
the `_clients` and `_client_info` entries but not the `_active_clients` entry
set on line 66; this theorem evaluates `start_mcp_server` on a descriptor
whose client activates but whose tool-list fetch raises, showing that the
call returns false and removes the client, its info and (vacuously) the
tool-list cache entry, yet leaves `is_active 7 = true` behind — the claimed
atomic rollback does not happen. -/
theorem C1_start_failure_leaves_active_flag :
    (start_mcp_server initMCP cfgListFails).1 = false
    ∧ is_running (start_mcp_server initMCP cfgListFails).2 7 = false
    ∧ lookupK 7 ((start_mcp_server initMCP cfgListFails).2).clientInfo = none
    ∧ lookupK 7 ((start_mcp_server initMCP cfgListFails).2).toolsCache = none
    ∧ is_active (start_mcp_server initMCP cfgListFails).2 7 = true := by
  decide

/-- C2: for every tool id whose provider is running, after `stop` returns
true the id is no longer running, `get_tools_from_client` reports not-found,
and no agents-cache fingerprint keeps `str(id)` as an exact comma-separated
component. -/
theorem C2_stop_removes_all_traces (s : MCPState) (toolId : Nat)
    (h : is_running s toolId = true) :
    (stop_mcp_server s toolId).1 = true
    ∧ is_running (stop_mcp_server s toolId).2 toolId = false
    ∧ (get_tools_from_client (stop_mcp_server s toolId).2 toolId).1 = none
    ∧ ((stop_mcp_server s toolId).2).agentsCache.all
        (fun p => !((p.1.splitOn ",").contains (toString toolId))) = true := by
  obtain ⟨c, hc⟩ : ∃ c, lookupK toolId s.clients = some c := by
    unfold is_running containsK at h
    cases hl : lookupK toolId s.clients with
    | none => rw [hl] at h; simp at h
    | some c => exact ⟨c, rfl⟩
  rw [stop_mcp_server_eq hc]
  exact ⟨rfl, by simp [is_running], by simp [get_tools_from_client],
    all_filter_self _ _⟩

/-- Witness for C2 at a concrete state: tool 7 is running with an active
client, a cached tool list, and agents-cache keys `"7"`, `"1,7"`, `"17"`;
after the stop the first two keys are gone while `"17"` (which does not have
`7` as a component) may remain. -/
theorem C2_witness :
    is_running sStopW 7 = true
    ∧ ((stop_mcp_server sStopW 7).1 = true
       ∧ is_running (stop_mcp_server sStopW 7).2 7 = false
       ∧ (get_tools_from_client (stop_mcp_server sStopW 7).2 7).1 = none
       ∧ ((stop_mcp_server sStopW 7).2).agentsCache.all
           (fun p => !((p.1.splitOn ",").contains (toString (7 : Nat)))) = true) :=
  ⟨by decide, C2_stop_removes_all_traces sStopW 7 (by decide)⟩

/-- C3: for every running tool id, `stop` returns true even when the client's
`__exit__` raises: the exception is swallowed (mcp_manager.py lines 101-105)
and the client, its info, its active flag and its cached tool list are all
removed.  The statement quantifies over arbitrary clients, including those
with `exitOk = false`. -/
theorem C3_stop_true_despite_exit_failure (s : MCPState) (toolId : Nat)
    (c : MCPClient) (h : lookupK toolId s.clients = some c) :
    (stop_mcp_server s toolId).1 = true
    ∧ is_running (stop_mcp_server s toolId).2 toolId = false
    ∧ lookupK toolId ((stop_mcp_server s toolId).2).clientInfo = none
    ∧ lookupK toolId ((stop_mcp_server s toolId).2).activeClients = none
    ∧ lookupK toolId ((stop_mcp_server s toolId).2).toolsCache = none := by
  rw [stop_mcp_server_eq h]
  exact ⟨rfl, by simp [is_running], by simp, by simp, by simp⟩

/-- Witness for C3 at a concrete state whose active client raises from
`__exit__` (`cExitRaises.exitOk = false`). -/
theorem C3_witness :
    (lookupK 4 sExitRaises.clients = some cExitRaises ∧ cExitRaises.exitOk = false)
    ∧ ((stop_mcp_server sExitRaises 4).1 = true
       ∧ is_running (stop_mcp_server sExitRaises 4).2 4 = false
       ∧ lookupK 4 ((stop_mcp_server sExitRaises 4).2).clientInfo = none
       ∧ lookupK 4 ((stop_mcp_server sExitRaises 4).2).activeClients = none
       ∧ lookupK 4 ((stop_mcp_server sExitRaises 4).2).toolsCache = none) :=
  ⟨⟨rfl, rfl⟩, C3_stop_true_despite_exit_failure sExitRaises 4 cExitRaises rfl⟩

/-- C4: a second `start` for the same descriptor right after a successful one
returns false, changes nothing in the manager state, and the registered
client for the id is still the one created (from the descriptor's oracle) by
the first call. -/
theorem C4_start_twice_no_op (s : MCPState) (cfg : ToolConfig)
    (h : (start_mcp_server s cfg).1 = true) :
    (start_mcp_server (start_mcp_server s cfg).2 cfg).1 = false
    ∧ (start_mcp_server (start_mcp_server s cfg).2 cfg).2 = (start_mcp_server s cfg).2
    ∧ lookupK cfg.id ((start_mcp_server s cfg).2).clients = some cfg.client := by
  obtain ⟨hc, he, ts, hl, heq⟩ := start_mcp_server_eq_of_true h
  rw [heq]
  have hcont :
      containsK cfg.id
        ((⟨insertK cfg.id cfg.client s.clients,
           insertK cfg.id (mkClientInfo cfg) s.clientInfo,
           insertK cfg.id true s.activeClients,
           insertK cfg.id ts s.toolsCache,
           s.agentsCache⟩ : MCPState)).clients = true := by
    simp
  refine ⟨?_, ?_, by simp⟩
  · simp [start_mcp_server]
  · simp [start_mcp_server]

/-- Witness for C4: starting the healthy stdio descriptor `cfgGood` twice
from the initial state. -/
theorem C4_witness :
    (start_mcp_server initMCP cfgGood).1 = true
    ∧ ((start_mcp_server (start_mcp_server initMCP cfgGood).2 cfgGood).1 = false
       ∧ (start_mcp_server (start_mcp_server initMCP cfgGood).2 cfgGood).2
           = (start_mcp_server initMCP cfgGood).2
       ∧ lookupK cfgGood.id ((start_mcp_server initMCP cfgGood).2).clients
           = some cfgGood.client) :=
  ⟨by decide, C4_start_twice_no_op initMCP cfgGood (by decide)⟩

/-- C5 counterexample: the claim quantifies over every pair of permuted
tool-id lists, but when no provider resolves any tool (here: an empty
descriptor store) the first call returns the built-ins fallback *without*
caching it (mcp_manager.py lines 273-275 return before line 289), so the
second, permuted call misses the cache and constructs a second agent: both
calls report build count 1 (a cache hit would be 0) and the agents cache
stays empty, contradicting "return the same cached agent instance, with the
agent built only once (the second call is a cache hit)". -/
theorem C5_counterexample_no_cache_hit :
    (get_agent_for_tools dbEmpty none initMCP [3, 1, 2]).2.2 = 1
    ∧ ((get_agent_for_tools dbEmpty none initMCP [3, 1, 2]).2.1).agentsCache = []
    ∧ (get_agent_for_tools dbEmpty none
        ((get_agent_for_tools dbEmpty none initMCP [3, 1, 2]).2.1) [1, 2, 3]).2.2 = 1 := by
  decide

/-- C5 as amended: for permuted non-empty tool-id lists whose provider loop
resolves at least one tool, both calls compute the same fingerprint, at most
one agent is built across the two calls, and the second call is a cache hit
returning exactly the agent instance the first call left in the cache,
without touching the state. -/
theorem C5_amended_order_independent_cache (db : Nat → Option ToolConfig)
    (model : Option String) (s : MCPState) (l1 l2 : List Nat)
    (hperm : l1.Perm l2) (hne : l1 ≠ [])
    (hres : (l1.foldl (processToolId db) ([], s)).1 ≠ []) :
    fingerprint l1 = fingerprint l2
    ∧ (get_agent_for_tools db model s l1).2.2
        + (get_agent_for_tools db model (get_agent_for_tools db model s l1).2.1 l2).2.2 ≤ 1
    ∧ (get_agent_for_tools db model (get_agent_for_tools db model s l1).2.1 l2).2.2 = 0
    ∧ (get_agent_for_tools db model (get_agent_for_tools db model s l1).2.1 l2).1
        = (get_agent_for_tools db model s l1).1
    ∧ (get_agent_for_tools db model (get_agent_for_tools db model s l1).2.1 l2).2.1
        = (get_agent_for_tools db model s l1).2.1
    ∧ lookupK (fingerprint l2)
        ((get_agent_for_tools db model s l1).2.1).agentsCache
        = some (get_agent_for_tools db model s l1).1 := by
  have hfp := fingerprint_perm hperm
  have hne2 : l2 ≠ [] := by
    intro h2
    apply hne
    have hl := hperm.length_eq
    rw [h2] at hl
    exact List.length_eq_zero.mp hl
  have hie1 : l1.isEmpty = false := by
    cases l1 with
    | nil => exact absurd rfl hne
    | cons a t => rfl
  have hie2 : l2.isEmpty = false := by
    cases l2 with
    | nil => exact absurd rfl hne2
    | cons a t => rfl
  cases hk : lookupK (fingerprint l1) s.agentsCache with
  | some a =>
    have h1 := get_agent_cache_hit db model s l1 a hie1 hk
    have hk2 : lookupK (fingerprint l2) s.agentsCache = some a := by rw [← hfp]; exact hk
    have h2 := get_agent_cache_hit db model s l2 a hie2 hk2
    rw [h1]
    exact ⟨hfp, by simp [h2], by simp [h2], by simp [h2], by simp [h2],
      by rw [← hfp]; exact hk⟩
  | none =>
    have hie : (l1.foldl (processToolId db) ([], s)).1.isEmpty = false := by
      cases hx : (l1.foldl (processToolId db) ([], s)).1 with
      | nil => exact absurd hx hres
      | cons a t => rfl
    have h1 := get_agent_cache_miss_build db model s l1 hie1 hk hie
    generalize hA :
      ({ tools := (l1.foldl (processToolId db) ([], s)).1.map AgentTool.mcp
           ++ builtInTools, model := model } : Agent) = A at h1
    generalize hS : (l1.foldl (processToolId db) ([], s)).2 = S at h1
    have hk2 :
        lookupK (fingerprint l2)
          ({ S with agentsCache := insertK (fingerprint l1) A S.agentsCache }).agentsCache
          = some A := by
      show lookupK (fingerprint l2) (insertK (fingerprint l1) A S.agentsCache) = some A
      rw [← hfp]; simp
    have h2 := get_agent_cache_hit db model
      { S with agentsCache := insertK (fingerprint l1) A S.agentsCache } l2 A hie2 hk2
    rw [h1]
    exact ⟨hfp, by simp [h2], by simp [h2], by simp [h2], by simp [h2], hk2⟩

/-- Witness for C5 (amended): lists `[1]` and `[1]` against a store holding
the healthy provider `cfgGood`, which resolves one tool, so the first call
caches and the second is a hit. -/
theorem C5_witness :
    ([1].Perm [1] ∧ ([1] : List Nat) ≠ []
      ∧ ([1].foldl (processToolId dbGood) ([], initMCP)).1 ≠ [])
    ∧ (fingerprint [1] = fingerprint [1]
       ∧ (get_agent_for_tools dbGood none initMCP [1]).2.2
           + (get_agent_for_tools dbGood none
               (get_agent_for_tools dbGood none initMCP [1]).2.1 [1]).2.2 ≤ 1
       ∧ (get_agent_for_tools dbGood none
           (get_agent_for_tools dbGood none initMCP [1]).2.1 [1]).2.2 = 0
       ∧ (get_agent_for_tools dbGood none
           (get_agent_for_tools dbGood none initMCP [1]).2.1 [1]).1
           = (get_agent_for_tools dbGood none initMCP [1]).1
       ∧ (get_agent_for_tools dbGood none
           (get_agent_for_tools dbGood none initMCP [1]).2.1 [1]).2.1
           = (get_agent_for_tools dbGood none initMCP [1]).2.1
       ∧ lookupK (fingerprint [1])
           ((get_agent_for_tools dbGood none initMCP [1]).2.1).agentsCache
           = some (get_agent_for_tools dbGood none initMCP [1]).1) :=
  ⟨⟨List.Perm.refl _, by decide, by decide⟩,
   C5_amended_order_independent_cache dbGood none initMCP [1] [1]
     (List.Perm.refl _) (by decide) (by decide)⟩

/-- C6 as amended: `get_agent_for_tools` on an empty tool-id list does not
fail — it returns an agent holding exactly the three built-in tools and no
external tools (one fresh build) — but it does *not* cache this agent: the
state, in particular the agents cache, is returned unchanged
(mcp_manager.py lines 231-233 return before any cache interaction). -/
theorem C6_empty_ids_builtins_only (db : Nat → Option ToolConfig)
    (model : Option String) (s : MCPState) :
    get_agent_for_tools db model s []
      = ({ tools := builtInTools, model := model }, s, 1) := rfl

/-- C6 counterexample: the claim additionally asserts that the built-ins-only
agent is cached under the empty-tool-set fingerprint; evaluating from the
initial state shows the agents cache is still empty after the call and the
empty fingerprint is absent. -/
theorem C6_counterexample_not_cached :
    ((get_agent_for_tools dbEmpty none initMCP []).2.1).agentsCache = []
    ∧ lookupK (fingerprint [])
        ((get_agent_for_tools dbEmpty none initMCP []).2.1).agentsCache = none := by
  decide

/-- Witness instantiating C6 (amended) at a concrete input. -/
theorem C6_witness :
    get_agent_for_tools dbEmpty none initMCP []
      = ({ tools := builtInTools, model := none }, initMCP, 1) :=
  C6_empty_ids_builtins_only dbEmpty none initMCP

/-- C7: the aggregate tool build never fails because of one bad provider:
(1) each loop step only ever appends to the accumulated tool list;
(2) a provider unknown to the descriptor store (and not running) is skipped
with no effect at all; (3) a provider whose start fails contributes nothing
to the accumulator; (4) a running provider whose tool fetch raises or yields
an empty (falsy) list contributes nothing; (5) when a cache-missing call
accumulates nothing at all, the result is the built-ins-only fallback agent,
not an error. -/
theorem C7_partial_failure_tolerance :
    (∀ (db : Nat → Option ToolConfig) (ts0 : List MCPTool) (s : MCPState) (toolId : Nat),
      ∃ ts, (processToolId db (ts0, s) toolId).1 = ts0 ++ ts)
    ∧ (∀ (db : Nat → Option ToolConfig) (ts0 : List MCPTool) (s : MCPState) (toolId : Nat),
        db toolId = none → is_running s toolId = false →
        processToolId db (ts0, s) toolId = (ts0, s))
    ∧ (∀ (db : Nat → Option ToolConfig) (ts0 : List MCPTool) (s : MCPState)
        (toolId : Nat) (cfg : ToolConfig),
        db toolId = some cfg → is_running s toolId = false →
        (start_mcp_server s cfg).1 = false →
        (processToolId db (ts0, s) toolId).1 = ts0)
    ∧ (∀ (db : Nat → Option ToolConfig) (ts0 : List MCPTool) (s : MCPState)
        (toolId : Nat),
        is_running s toolId = true →
        ((get_tools_from_client s toolId).1 = none
          ∨ (get_tools_from_client s toolId).1 = some []) →
        (processToolId db (ts0, s) toolId).1 = ts0)
    ∧ (∀ (db : Nat → Option ToolConfig) (model : Option String) (s : MCPState)
        (ids : List Nat),
        ids ≠ [] → lookupK (fingerprint ids) s.agentsCache = none →
        (ids.foldl (processToolId db) ([], s)).1 = [] →
        get_agent_for_tools db model s ids
          = ({ tools := builtInTools, model := model },
             (ids.foldl (processToolId db) ([], s)).2, 1)) := by
  refine ⟨?_, ?_, ?_, ?_, ?_⟩
  · intro db ts0 s toolId
    by_cases hrun : is_running s toolId
    · cases hg : (get_tools_from_client s toolId).1 with
      | some ts =>
        by_cases hts : ts.isEmpty
        · exact ⟨[], by simp [processToolId, hrun, hg, hts]⟩
        · exact ⟨ts, by simp [processToolId, hrun, hg, hts]⟩
      | none => exact ⟨[], by simp [processToolId, hrun, hg]⟩
    · cases hdb : db toolId with
      | none => exact ⟨[], by simp [processToolId, hrun, hdb]⟩
      | some cfg =>
        by_cases hst : (start_mcp_server s cfg).1
        · cases hg : (get_tools_from_client (start_mcp_server s cfg).2 toolId).1 with
          | some ts =>
            by_cases hts : ts.isEmpty
            · exact ⟨[], by simp [processToolId, hrun, hdb, hst, hg, hts]⟩
            · exact ⟨ts, by simp [processToolId, hrun, hdb, hst, hg, hts]⟩
          | none => exact ⟨[], by simp [processToolId, hrun, hdb, hst, hg]⟩
        · exact ⟨[], by simp [processToolId, hrun, hdb, hst]⟩
  · intro db ts0 s toolId hdb hrun
    simp [processToolId, hrun, hdb]
  · intro db ts0 s toolId cfg hdb hrun hst
    simp [processToolId, hrun, hdb, hst]
  · intro db ts0 s toolId hrun hg
    cases hg with
    | inl hg => simp [processToolId, hrun, hg]
    | inr hg => simp [processToolId, hrun, hg]
  · intro db model s ids hne hk hempty
    have hie : ids.isEmpty = false := by
      cases ids with
      | nil => exact absurd rfl hne
      | cons a t => rfl
    exact get_agent_cache_miss_empty db model s ids hie hk (by simp [hempty])

/-- Witness exercising all five parts of C7 at concrete inputs: id 9 unknown
to the store, id 3 whose http descriptor lacks a URL (start fails), id 4
running with an empty cached tool list, and the list `[5]` resolving nothing
(built-ins fallback with no caching). -/
theorem C7_witness :
    (∃ ts, (processToolId dbEmpty ([], initMCP) 9).1 = [] ++ ts)
    ∧ processToolId dbEmpty ([], initMCP) 9 = ([], initMCP)
    ∧ (processToolId dbNoUrl ([], initMCP) 3).1 = []
    ∧ (processToolId dbEmpty ([], sExitRaises) 4).1 = []
    ∧ get_agent_for_tools dbEmpty none initMCP [5]
        = ({ tools := builtInTools, model := none }, initMCP, 1) := by
  refine ⟨C7_partial_failure_tolerance.1 dbEmpty [] initMCP 9,
    C7_partial_failure_tolerance.2.1 dbEmpty [] initMCP 9 rfl rfl,
    C7_partial_failure_tolerance.2.2.1 dbNoUrl [] initMCP 3 cfgNoUrl ?_ rfl ?_,
    C7_partial_failure_tolerance.2.2.2.1 dbEmpty [] sExitRaises 4 ?_ (Or.inr ?_), ?_⟩
  · decide
  · decide
  · decide
  · decide
  · exact C7_partial_failure_tolerance.2.2.2.2 dbEmpty none initMCP [5] (by decide) rfl rfl

/-- C8: session expiry is sliding.  For a session present in both registry
maps with stored deadline `e`: (1) `cleanup_expired_sessions now` keeps it
exactly when `e < now` fails — i.e. it removes exactly the sessions whose
refreshed deadline (`lastUsed + idleTimeout`, maintained by `create` and
`get`) is strictly in the past; (2) a successful `get` at `now` moves the
deadline to `now + expiryTime`; (3) consequently, after a `get` at `now`, a
sweep at `now2` removes the session iff `now + expiryTime < now2` — touched
within the window it survives, idle past the window it is removed. -/
theorem C8_sliding_expiry (mgr : SessionMgr) (sid : String) (d : SessionData)
    (now now2 : Nat)
    (hs : lookupK sid mgr.sessions = some d)
    (he : lookupK sid mgr.sessionExpiry = some (d.lastUsedAt + mgr.expiryTime))
    (hnd : (mgr.sessionExpiry.map Prod.fst).Nodup) :
    containsK sid ((cleanup_expired_sessions mgr now).2).sessions
        = !decide (d.lastUsedAt + mgr.expiryTime < now)
    ∧ lookupK sid ((get_session mgr sid now).2).sessionExpiry
        = some (now + mgr.expiryTime)
    ∧ containsK sid
        ((cleanup_expired_sessions ((get_session mgr sid now).2) now2).2).sessions
        = !decide (now + mgr.expiryTime < now2) := by
  have hcont : containsK sid mgr.sessions = true := by
    unfold containsK; rw [hs]; rfl
  have hmgr1 : (get_session mgr sid now).2
      = { mgr with
            sessionExpiry := insertK sid (now + mgr.expiryTime) mgr.sessionExpiry,
            sessions := insertK sid { d with lastUsedAt := now } mgr.sessions } := by
    simp [get_session, hs]
  refine ⟨?_, ?_, ?_⟩
  · rw [cleanup_containsK mgr now sid _ hnd he, hcont, Bool.true_and]
  · rw [hmgr1]; simp
  · rw [hmgr1]
    have hnd1 :
        ((insertK sid (now + mgr.expiryTime) mgr.sessionExpiry).map Prod.fst).Nodup :=
      nodup_keys_insertK _ _ hnd
    have he1 :
        lookupK sid (insertK sid (now + mgr.expiryTime) mgr.sessionExpiry)
          = some (now + mgr.expiryTime) := by simp
    rw [cleanup_containsK
        { mgr with
            sessionExpiry := insertK sid (now + mgr.expiryTime) mgr.sessionExpiry,
            sessions := insertK sid { d with lastUsedAt := now } mgr.sessions }
        now2 sid _ hnd1 he1]
    simp

/-- Witness for C8 at the concrete one-session registry `mgrC8` (session
`"s"`, deadline 1900): a sweep at 2000 removes it, while after a `get` at
2000 the deadline is 3800 and a sweep at 5000 removes it again. -/
theorem C8_witness :
    (containsK "s" ((cleanup_expired_sessions mgrC8 2000).2).sessions
        = !decide (dC8.lastUsedAt + mgrC8.expiryTime < 2000))
    ∧ lookupK "s" ((get_session mgrC8 "s" 2000).2).sessionExpiry
        = some (2000 + mgrC8.expiryTime)
    ∧ containsK "s"
        ((cleanup_expired_sessions ((get_session mgrC8 "s" 2000).2) 5000).2).sessions
        = !decide (2000 + mgrC8.expiryTime < 5000) :=
  C8_sliding_expiry mgrC8 "s" dC8 2000 5000 (by decide) (by decide) (by decide)

/-- C9 counterexample: with session `"sess-a"` bound to assistant 1, a
request targeting assistant 2 closes the old session and creates a new one —
but `create_chat_completion` passes the *supplied* session id into
`create_session` (openai_compatible.py lines 140-141), so the new session is
stored under the same id `"sess-a"`, not a different one as the claim
states. -/
theorem C9_counterexample_same_id :
    (chat_session_handling mgrC9 "sess-a" 2 [] [] 10 "fresh").1 = "sess-a"
    ∧ (lookupK "sess-a"
        ((chat_session_handling mgrC9 "sess-a" 2 [] [] 10 "fresh").2).sessions).map
        SessionData.assistantId = some 2 := by
  decide

/-- C9 as amended: on an assistant mismatch the old session is closed and a
fresh session bound to the requested assistant is created, but it is stored
under the *same* supplied session id (which is also the id returned in the
`Session-ID` header); the session record itself is brand new (new creation
time, new agent, the requested assistant binding). -/
theorem C9_mismatch_closes_and_reuses_id (mgr : SessionMgr) (sid : String)
    (d : SessionData) (aNew : Nat) (cls : List MCPClient) (tls : List AgentTool)
    (now : Nat) (genId : String)
    (hs : lookupK sid mgr.sessions = some d)
    (hmis : d.assistantId ≠ aNew) :
    (chat_session_handling mgr sid aNew cls tls now genId).1 = sid
    ∧ lookupK sid ((chat_session_handling mgr sid aNew cls tls now genId).2).sessions
        = some { assistantId := aNew, clients := cls,
                 agent := { tools := tls, model := none }, tools := tls,
                 createdAt := now, lastUsedAt := now } := by
  unfold chat_session_handling
  simp only [get_session, hs]
  simp only [hmis, if_false]
  constructor
  · simp [create_session]
  · simp [create_session, close_session, containsK]

/-- Witness instantiating C9 (amended) at the concrete registry `mgrC9`. -/
theorem C9_witness :
    (chat_session_handling mgrC9 "sess-a" 2 [] [] 10 "fresh2").1 = "sess-a"
    ∧ lookupK "sess-a"
        ((chat_session_handling mgrC9 "sess-a" 2 [] [] 10 "fresh2").2).sessions
        = some { assistantId := 2, clients := [],
                 agent := { tools := [], model := none }, tools := [],
                 createdAt := 10, lastUsedAt := 10 } :=
  C9_mismatch_closes_and_reuses_id mgrC9 "sess-a"
    { assistantId := 1, clients := [], agent := { tools := [], model := none },
      tools := [], createdAt := 0, lastUsedAt := 0 }
    2 [] [] 10 "fresh2" (by decide) (by decide)

theorem sameKeys_close {m : SessionMgr} (hm : SameKeys m) (sid : String) :
    SameKeys (close_session m sid).2 := by
  intro x
  unfold close_session
  by_cases h : containsK sid m.sessions
  · simp [h, hm x]
  · simp [h, hm x]

theorem sameKeys_foldl_close {m : SessionMgr} (L : List String) (hm : SameKeys m) :
    SameKeys (L.foldl (fun m sid => (close_session m sid).2) m) := by
  induction L generalizing m with
  | nil => exact hm
  | cons a L ih => exact ih (sameKeys_close hm a)

theorem sameKeys_applyOp {m : SessionMgr} (hm : SameKeys m) (op : SessionOp) :
    SameKeys (applyOp m op) := by
  cases op with
  | create sessionId genId assistantId clients tools now =>
    intro x
    unfold applyOp create_session
    by_cases h : containsK (sessionId.getD genId) m.sessions
    · simp [h, sameKeys_close hm (sessionId.getD genId) x]
    · simp [h, hm x]
  | get sid now =>
    intro x
    unfold applyOp get_session
    cases hl : lookupK sid m.sessions with
    | some d => simp [hl, hm x]
    | none => simp [hl, hm x]
  | close sid => exact sameKeys_close hm sid
  | cleanup now =>
    unfold applyOp cleanup_expired_sessions
    exact sameKeys_foldl_close _ hm
  | clearAll =>
    unfold applyOp clear_all_sessions
    exact sameKeys_foldl_close _ hm

/-- C10: after every sequence of `create_session`, `get_session`,
`close_session`, `cleanup_expired_sessions` and `clear_all_sessions`
operations from a freshly initialised manager, the `sessions` map and the
`session_expiry` map hold exactly the same session ids: no session without a
deadline, no deadline outliving its session. -/
theorem C10_sessions_expiry_same_keys (expiryTime : Nat) (ops : List SessionOp) :
    SameKeys (ops.foldl applyOp (initSessionMgr expiryTime)) := by
  have hfold : ∀ (l : List SessionOp) (m : SessionMgr),
      SameKeys m → SameKeys (l.foldl applyOp m) := by
    intro l
    induction l with
    | nil => intro m hm; exact hm
    | cons op l ih => intro m hm; exact ih _ (sameKeys_applyOp hm op)
  exact hfold ops _ (fun _ => rfl)

/-- Witness evaluating the C10 invariant on a concrete operation sequence
(create, get, create-colliding, cleanup). -/
theorem C10_witness :
    containsK "a"
      (([SessionOp.create (some "a") "g" 1 [] [] 5,
         SessionOp.get "a" 6,
         SessionOp.create (some "a") "g" 2 [] [] 7,
         SessionOp.cleanup 10000].foldl applyOp (initSessionMgr 1800))).sessions
    = containsK "a"
      (([SessionOp.create (some "a") "g" 1 [] [] 5,
         SessionOp.get "a" 6,
         SessionOp.create (some "a") "g" 2 [] [] 7,
         SessionOp.cleanup 10000].foldl applyOp (initSessionMgr 1800))).sessionExpiry :=
  C10_sessions_expiry_same_keys 1800
    [SessionOp.create (some "a") "g" 1 [] [] 5,
     SessionOp.get "a" 6,
     SessionOp.create (some "a") "g" 2 [] [] 7,
     SessionOp.cleanup 10000] "a"

end MCPConnector
